import Mathlib

/-!
Verification of the clawdbot-feishu relay (`src/pythondemo/main.py`).

The repository is a single-file webhook relay: it deduplicates inbound
Feishu/Lark message events, filters them by message type, hands the text of
accepted events to an external CLI agent, and sends the reply back.

This file shallowly embeds the business logic of `main.py`:
* the dedup window `_is_dup` (timestamps modelled as rationals, the mutable
  module-level dict `_seen_message_ids` modelled as an association list in
  insertion order, time passed explicitly);
* the agent invoker `call_clawdbot_cli` (the outcome of the external
  `subprocess.run` call is passed in as a `ProcResult` value);
* the reply sender `send_lark_reply` (the outcome of the external Lark client
  call is passed in as a `SendAttempt` value);
* the event handler `do_p2_im_message_receive_v1` (the result of the external
  `json.loads` on the message content is passed in already parsed).
-/

set_option linter.unusedVariables false

namespace ClawdbotFeishu

/-- `TTL_SECONDS = 60` from `main.py` line 30: a hardcoded module constant. -/
def TTL_SECONDS : ℚ := 60

/-- `CLAWDBOT_AGENT_SESSION = "main"` from `main.py` line 28: hardcoded. -/
def CLAWDBOT_AGENT_SESSION : String := "main"

/-- The module-level dict `_seen_message_ids : message_id -> first-seen time`,
modelled as an association list in insertion order (Python dicts preserve
insertion order; new keys are appended at the end). -/
abbrev DedupMap := List (String × ℚ)

/-- The cleanup loop of `_is_dup` (lines 36-38): pop every entry whose age
exceeds `TTL_SECONDS`, i.e. keep exactly the entries with
`now - ts ≤ TTL_SECONDS`. -/
def sweep (now : ℚ) (m : DedupMap) : DedupMap :=
  m.filter (fun e => decide (now - e.2 ≤ TTL_SECONDS))

/-- `_is_dup(message_id)` (lines 32-44). The current time `now`
(`time.time()`) and the current state of `_seen_message_ids` are explicit;
the result is the returned boolean together with the new state. -/
def is_dup (m : DedupMap) (now : ℚ) (message_id : String) : Bool × DedupMap :=
  let m1 := sweep now m
  if m1.any (fun e => e.1 == message_id) then
    (true, m1)
  else
    (false, m1 ++ [(message_id, now)])

/-- The timestamps recorded for key `k`, in order. On reachable states a key
has at most one entry, but the lemmas below do not need that invariant. -/
def tsOf (m : DedupMap) (k : String) : List ℚ :=
  (m.filter (fun e => e.1 == k)).map (fun e => e.2)

/-- Outcome of the external `subprocess.run(cmd, capture_output=True,
text=True, timeout=60)` call in `call_clawdbot_cli` (line 52): the process
completed with an exit code and captured streams, or `subprocess.TimeoutExpired`
was raised, or some other exception (e.g. `FileNotFoundError`) was raised,
carrying its display text. -/
inductive ProcResult where
  | completed (returncode : Int) (stdout stderr : String)
  | timeoutExpired
  | otherExc (e : String)
deriving DecidableEq

/-- The characters Python `str.strip()` removes (ASCII whitespace). -/
def isPyWS (c : Char) : Bool :=
  c == ' ' || c == '\t' || c == '\n' || c == '\r' || c == '\x0b' || c == '\x0c'

/-- Python `s.strip()`: drop whitespace from both ends. -/
def pyStrip (s : String) : String :=
  String.mk (((s.data.dropWhile isPyWS).reverse.dropWhile isPyWS).reverse)

/-- `dropPrefixQ sep l` returns `some rest` when `l = sep ++ rest`. -/
def dropPrefixQ : List Char → List Char → Option (List Char)
  | [], l => some l
  | _ :: _, [] => none
  | s :: ss, c :: cs => if s == c then dropPrefixQ ss cs else none

/-- The left-to-right non-overlapping scan of Python `s.split(sep)` for a
non-empty `sep`, over character lists. The fuel argument only forces
structural termination: with `fuel ≥ l.length + 1` and a non-empty
separator the fuel never runs out, since every step consumes at least one
character. -/
def splitTokens (sep : List Char) : Nat → List Char → List Char → List (List Char)
  | 0, l, acc => [acc.reverse ++ l]
  | fuel + 1, l, acc =>
    match l with
    | [] => [acc.reverse]
    | c :: cs =>
      match dropPrefixQ sep (c :: cs) with
      | some rest => acc.reverse :: splitTokens sep fuel rest []
      | none => splitTokens sep fuel cs (c :: acc)

/-- Python `s.split(sep)` for a non-empty separator. -/
def pySplit (sep s : String) : List String :=
  (splitTokens sep.data (s.data.length + 1) s.data []).map String.mk

/-- A line contains the CLI-decoration marker, Python `'│ ◇' in line`
(line 71): splitting on a non-empty separator yields more than one piece
exactly when the separator occurs. -/
def hasMarker (line : String) : Bool :=
  decide (1 < (pySplit "│ ◇" line).length)

/-- Python `line.split('│ ◇')[-1].strip()` (line 72): the piece after the
last occurrence of the marker, stripped. `split` always returns a non-empty
list, so the default of `getLastD` is never used. -/
def afterMarker (line : String) : String :=
  pyStrip ((pySplit "│ ◇" line).getLastD "")

/-- `call_clawdbot_cli(prompt)` (lines 46-82), with the outcome of the
external process call passed in explicitly. The function is total: every
failure of the subprocess is converted to a reply string, never re-raised
(the `try` block catches `subprocess.TimeoutExpired` and every other
`Exception`). The prompt only feeds the spawned command line, so it does not
appear here. -/
def call_clawdbot_cli (r : ProcResult) : String :=
  match r with
  | .completed returncode out err =>
    let stdout := pyStrip out
    let stderr := pyStrip err
    if returncode ≠ 0 then
      "Clawdbot failed (code " ++ toString returncode ++ "): "
        ++ (if stderr = "" then "Unknown error" else stderr)
    else if stdout ≠ "" then
      match (pySplit "\n" stdout).find? hasMarker with
      | some line => afterMarker line
      | none => stdout
    else
      "Clawdbot returned no content."
  | .timeoutExpired => "Sorry, I took too long to think. Please try again."
  | .otherExc e => "Error calling Clawdbot: " ++ e

/-- Outcome of the external Lark client call in `send_lark_reply`
(lines 87-99): either `client.im.v1.message.create` returned a response
(with its success flag, error code and message), or somewhere in the `try`
block an exception was raised, carrying its display text. -/
inductive SendAttempt where
  | response (success : Bool) (code : Int) (msg : String)
  | exc (e : String)
deriving DecidableEq

/-- A log line emitted through `logger`. -/
inductive LogLine where
  | info (s : String)
  | error (s : String)
deriving DecidableEq

/-- `send_lark_reply(chat_id, reply_text)` (lines 84-106). The result is the
list of emitted log lines together with the value returned to the caller:
the Python function has no `return` statement on any path, so it always
returns `None`, modelled as `(none : Option Bool)`. -/
def send_lark_reply (chat_id : String) (reply_text : String)
    (attempt : SendAttempt) : List LogLine × Option Bool :=
  match attempt with
  | .response success code msg =>
    if success then
      ([.info ("[Feishu] Reply sent to chat_id: " ++ chat_id)], none)
    else
      ([.error ("[Feishu] Send failed: code=" ++ toString code ++ ", msg=" ++ msg)], none)
  | .exc e => ([.error ("[Feishu] Exception sending reply: " ++ e)], none)

/-- A JSON value, as produced by `json.loads`. An object is the resulting
Python dict: an association list with unique keys. -/
inductive Json where
  | obj (fields : List (String × Json))
  | arr (items : List Json)
  | str (s : String)
  | num (n : Int)
  | bool (b : Bool)
  | null

/-- Whether a JSON value is an object, i.e. `json.loads` produced a dict
(the only Python value with a `.get` method among JSON results). -/
def Json.isObj : Json → Bool
  | .obj _ => true
  | _ => false

/-- Python `d.get("text", "")` on the dict `d` (line 127): the value of key
`"text"` when present, otherwise the default `""`. -/
def dictGetText (fields : List (String × Json)) : Json :=
  match fields.lookup "text" with
  | some v => v
  | none => Json.str ""

/-- The fields of an inbound `P2ImMessageReceiveV1` event that
`do_p2_im_message_receive_v1` reads. `content` is the result of the external
`json.loads(msg.content)` (line 127): `Except.error ()` when it raises
`json.JSONDecodeError`, `Except.ok j` when it parses to `j`. -/
structure InboundEvent where
  message_id : String
  chat_id : String
  message_type : String
  content : Except Unit Json

/-- How one call of `do_p2_im_message_receive_v1` ends.
  * `filteredDuplicate`: returned at line 116 (dedup hit).
  * `filteredWrongType`: returned at line 123 (`message_type != "text"`).
  * `droppedMalformed`: `json.loads` raised `json.JSONDecodeError`, caught
    at line 128, handler returns at line 130.
  * `uncaughtError`: `json.loads` succeeded but the value is not a dict, so
    `.get` raised `AttributeError`, which no `except` clause catches: the
    exception escapes the handler.
  * `dispatched chat_id text`: the handler reached line 140 and started the
    background thread, which runs `process_and_reply`: it always calls
    `call_clawdbot_cli` on the text and then `send_lark_reply` to `chat_id`.
    This is the only outcome in which the agent invoker or the reply sender
    runs. -/
inductive DispatchOutcome where
  | filteredDuplicate
  | filteredWrongType
  | droppedMalformed
  | uncaughtError
  | dispatched (chat_id : String) (text : Json)

/-- `do_p2_im_message_receive_v1(data)` (lines 108-140). The dedup state and
the current time are explicit; the result is the new dedup state and the
outcome of the call. -/
def do_p2_im_message_receive_v1 (st : DedupMap) (now : ℚ) (ev : InboundEvent) :
    DedupMap × DispatchOutcome :=
  let r := is_dup st now ev.message_id
  if r.1 then
    (r.2, .filteredDuplicate)
  else if ev.message_type ≠ "text" then
    (r.2, .filteredWrongType)
  else
    match ev.content with
    | .error _ => (r.2, .droppedMalformed)
    | .ok j =>
      match j with
      | .obj fields => (r.2, .dispatched ev.chat_id (dictGetText fields))
      | _ => (r.2, .uncaughtError)

/-- The process-wide configuration of `main.py` (lines 18-30): the four
values read from the environment via `os.getenv` at import time, plus the
two hardcoded module constants. -/
structure Config where
  app_id : Option String
  app_secret : Option String
  encrypt_key : Option String
  verification_token : Option String
  clawdbot_agent_session : String
  ttl_seconds : ℚ

/-- Building the configuration from the environment (lines 18-21, 28, 30).
`env` maps a variable name to its value, `none` when unset. `APP_ID`,
`APP_SECRET`, `ENCRYPT_KEY` and `VERIFICATION_TOKEN` come from `os.getenv`;
`CLAWDBOT_AGENT_SESSION` and `TTL_SECONDS` are assigned literal constants. -/
def loadConfig (env : String → Option String) : Config :=
  { app_id := env "APP_ID"
    app_secret := env "APP_SECRET"
    encrypt_key := env "ENCRYPT_KEY"
    verification_token := env "VERIFICATION_TOKEN"
    clawdbot_agent_session := "main"
    ttl_seconds := 60 }

theorem tsOf_nil (k : String) : tsOf [] k = [] := rfl

theorem tsOf_append (a b : DedupMap) (k : String) :
    tsOf (a ++ b) k = tsOf a k ++ tsOf b k := by
  simp [tsOf, List.filter_append]

theorem tsOf_sweep (now : ℚ) (m : DedupMap) (k : String) :
    tsOf (sweep now m) k
      = (tsOf m k).filter (fun t => decide (now - t ≤ TTL_SECONDS)) := by
  unfold tsOf sweep
  rw [List.filter_filter, List.filter_map, List.filter_filter]
  exact congrArg (List.map _)
    (List.filter_congr (fun a _ => by simp [Function.comp, Bool.and_comm]))

theorem any_key_eq_tsOf (m : DedupMap) (k : String) :
    (m.any (fun e => e.1 == k)) = !(tsOf m k).isEmpty := by
  induction m with
  | nil => rfl
  | cons e tl ih =>
    cases hk : (e.1 == k)
    · simpa [tsOf, List.any_cons, List.filter_cons, hk] using ih
    · simp [tsOf, List.any_cons, List.filter_cons, hk]

/-- If the id has no live entry after the sweep, `_is_dup` records it and
returns `False`. -/
theorem is_dup_not_seen (m : DedupMap) (now : ℚ) (id : String)
    (h : tsOf (sweep now m) id = []) :
    is_dup m now id = (false, sweep now m ++ [(id, now)]) := by
  simp [is_dup, any_key_eq_tsOf, h]

/-- If the id has a live entry after the sweep, `_is_dup` returns `True` and
the new state is exactly the swept map. -/
theorem is_dup_seen (m : DedupMap) (now : ℚ) (id : String)
    (h : tsOf (sweep now m) id ≠ []) :
    is_dup m now id = (true, sweep now m) := by
  simp [is_dup, any_key_eq_tsOf, h]

/-- The state after a call is either the swept map (duplicate) or the swept
map with the fresh id appended (first sighting). -/
theorem is_dup_snd (m : DedupMap) (now : ℚ) (id : String) :
    (is_dup m now id).2 = sweep now m ∨
    (is_dup m now id).2 = sweep now m ++ [(id, now)] := by
  by_cases h : ((sweep now m).any (fun e => e.1 == id)) = true
  · left; simp [is_dup, h]
  · right; simp [is_dup, h]

/-- C1: for a message id with no live record, the first `_is_dup` call
records it at time `t1` and returns `False`; a later call at `t2` with
`t2 - t1 ≤ TTL` returns `True` and does not refresh the recorded timestamp
(which stays `t1`, so duplicate calls in between change nothing); a call at
`t3` with `t3 - t1 > TTL` returns `False` again and re-records the id at
`t3`. -/
theorem dedup_first_dup_expire (st0 : DedupMap) (id : String) (t1 t2 t3 : ℚ)
    (h0 : tsOf st0 id = [])
    (h12 : t2 - t1 ≤ TTL_SECONDS)
    (h13 : TTL_SECONDS < t3 - t1) :
    ∃ st1 st2 st3,
      is_dup st0 t1 id = (false, st1) ∧ tsOf st1 id = [t1] ∧
      is_dup st1 t2 id = (true, st2) ∧ tsOf st2 id = [t1] ∧
      is_dup st2 t3 id = (false, st3) ∧ tsOf st3 id = [t3] := by
  have hd12 : decide (t2 - t1 ≤ TTL_SECONDS) = true := decide_eq_true h12
  have hd13 : decide (t3 - t1 ≤ TTL_SECONDS) = false :=
    decide_eq_false (not_le.mpr h13)
  have hs1 : tsOf (sweep t1 st0) id = [] := by
    rw [tsOf_sweep, h0]; rfl
  have e1 : is_dup st0 t1 id = (false, sweep t1 st0 ++ [(id, t1)]) :=
    is_dup_not_seen _ _ _ hs1
  have hts1 : tsOf (sweep t1 st0 ++ [(id, t1)]) id = [t1] := by
    rw [tsOf_append, hs1]; simp [tsOf]
  have hs2 : tsOf (sweep t2 (sweep t1 st0 ++ [(id, t1)])) id = [t1] := by
    rw [tsOf_sweep, hts1]; simp [List.filter_cons, hd12]; linarith
  have e2 : is_dup (sweep t1 st0 ++ [(id, t1)]) t2 id
      = (true, sweep t2 (sweep t1 st0 ++ [(id, t1)])) :=
    is_dup_seen _ _ _ (by rw [hs2]; simp)
  have hs3 : tsOf (sweep t3 (sweep t2 (sweep t1 st0 ++ [(id, t1)]))) id = [] := by
    rw [tsOf_sweep, hs2]; simp [List.filter_cons, hd13]; linarith
  have e3 : is_dup (sweep t2 (sweep t1 st0 ++ [(id, t1)])) t3 id
      = (false, sweep t3 (sweep t2 (sweep t1 st0 ++ [(id, t1)])) ++ [(id, t3)]) :=
    is_dup_not_seen _ _ _ hs3
  have hts3 : tsOf (sweep t3 (sweep t2 (sweep t1 st0 ++ [(id, t1)])) ++ [(id, t3)]) id
      = [t3] := by
    rw [tsOf_append, hs3]; simp [tsOf]
  exact ⟨_, _, _, e1, hts1, e2, hs2, e3, hts3⟩

/-- C1 witness: with an empty window, id `"m1"`, calls at times 0, 30
(within TTL of the first sighting) and 100 (past TTL of the first
sighting). -/
theorem dedup_first_dup_expire_witness :
    ∃ st1 st2 st3,
      is_dup [] 0 "m1" = (false, st1) ∧ tsOf st1 "m1" = [0] ∧
      is_dup st1 30 "m1" = (true, st2) ∧ tsOf st2 "m1" = [0] ∧
      is_dup st2 100 "m1" = (false, st3) ∧ tsOf st3 "m1" = [100] :=
  dedup_first_dup_expire [] "m1" 0 30 100 rfl (by norm_num [TTL_SECONDS])
    (by norm_num [TTL_SECONDS])

/-- C7: after any `_is_dup` call, every entry left in the window is at most
`TTL_SECONDS` old; and for any key other than the one passed in, if all of
its recorded timestamps were expired before the call, the call removes them
all — its record count reaches zero regardless of which id triggered the
sweep. -/
theorem dedup_window_invariant (m : DedupMap) (now : ℚ) (id : String) :
    (∀ e ∈ (is_dup m now id).2, now - e.2 ≤ TTL_SECONDS) ∧
    (∀ k, k ≠ id → (∀ t ∈ tsOf m k, TTL_SECONDS < now - t) →
      tsOf (is_dup m now id).2 k = []) := by
  have hsweep : ∀ e ∈ sweep now m, now - e.2 ≤ TTL_SECONDS := by
    intro e he
    exact of_decide_eq_true (List.mem_filter.mp he).2
  constructor
  · intro e he
    rcases is_dup_snd m now id with h | h <;> rw [h] at he
    · exact hsweep e he
    · rcases List.mem_append.mp he with h1 | h1
      · exact hsweep e h1
      · rw [List.mem_singleton] at h1
        rw [h1]
        show now - now ≤ TTL_SECONDS
        rw [sub_self]
        norm_num [TTL_SECONDS]
  · intro k hk hexp
    have hnil : tsOf (sweep now m) k = [] := by
      rw [tsOf_sweep]
      refine List.filter_eq_nil_iff.mpr ?_
      intro t ht
      simp only [decide_eq_true_eq]
      exact not_le.mpr (hexp t ht)
    rcases is_dup_snd m now id with h | h <;> rw [h]
    · exact hnil
    · rw [tsOf_append, hnil]
      have : (id == k) = false := beq_eq_false_iff_ne.mpr (Ne.symm hk)
      simp [tsOf, this]

/-- C7 witness: a window holding only `"old"` seen at time 0; a call at time
100 with the unrelated id `"m2"` leaves only fresh entries and erases every
record of `"old"`. -/
theorem dedup_window_invariant_witness :
    (∀ e ∈ (is_dup [("old", (0:ℚ))] 100 "m2").2, (100:ℚ) - e.2 ≤ TTL_SECONDS) ∧
    tsOf (is_dup [("old", (0:ℚ))] 100 "m2").2 "old" = [] := by
  have h := dedup_window_invariant [("old", (0:ℚ))] 100 "m2"
  refine ⟨h.1, h.2 "old" (by decide) ?_⟩
  intro t ht
  simp [tsOf] at ht
  rw [ht]
  norm_num [TTL_SECONDS]

/-- C8: a call whose id is present and unexpired returns `True` and leaves
the window otherwise unchanged: the new state is exactly the old map with
the expired entries filtered out, so the existing timestamp is kept, nothing
is inserted, and the only mutation is the removal of entries older than
`TTL_SECONDS`. -/
theorem dedup_duplicate_frame (m : DedupMap) (now : ℚ) (id : String) (ts : ℚ)
    (hmem : (id, ts) ∈ m) (hfresh : now - ts ≤ TTL_SECONDS) :
    is_dup m now id
      = (true, m.filter (fun e => decide (now - e.2 ≤ TTL_SECONDS))) := by
  have h1 : (id, ts) ∈ sweep now m :=
    List.mem_filter.mpr ⟨hmem, decide_eq_true hfresh⟩
  have h2 : (sweep now m).any (fun e => e.1 == id) = true :=
    List.any_eq_true.mpr ⟨(id, ts), h1, by simp⟩
  simp only [is_dup, h2, if_true]
  rfl

/-- C8 witness: `"m1"` seen at time 0, duplicate call at time 30. -/
theorem dedup_duplicate_frame_witness :
    is_dup [("m1", (0:ℚ))] 30 "m1"
      = (true, [("m1", (0:ℚ))].filter (fun e => decide ((30:ℚ) - e.2 ≤ TTL_SECONDS))) :=
  dedup_duplicate_frame [("m1", (0:ℚ))] 30 "m1" 0 (by simp)
    (by norm_num [TTL_SECONDS])

/-- On a zero exit code with non-empty trimmed output, the invoker returns
the decoration-stripped first marker line, or the whole trimmed output when
no line has the marker. -/
theorem call_success_eq (out err : String) (h : pyStrip out ≠ "") :
    call_clawdbot_cli (.completed 0 out err)
      = match (pySplit "\n" (pyStrip out)).find? hasMarker with
        | some line => afterMarker line
        | none => pyStrip out := by
  simp [call_clawdbot_cli, h]

/-- On a zero exit code with empty trimmed output, the invoker returns the
fixed no-content message. -/
theorem call_success_empty (out err : String) (h : pyStrip out = "") :
    call_clawdbot_cli (.completed 0 out err) = "Clawdbot returned no content." := by
  simp [call_clawdbot_cli, h]

/-- C3: the invoker always returns a reply string (it is a total function
into `String`): on a non-zero exit code the string is the diagnostic built
from the exit code and the trimmed standard-error capture (or `Unknown
error` when that is empty); on `subprocess.TimeoutExpired` it is the fixed
apology; on any other exception it is a description of the failure. -/
theorem clawdbot_invoker_error_texts (returncode : Int) (out err e : String) :
    (returncode ≠ 0 →
      call_clawdbot_cli (.completed returncode out err)
        = "Clawdbot failed (code " ++ toString returncode ++ "): "
            ++ (if pyStrip err = "" then "Unknown error" else pyStrip err)) ∧
    call_clawdbot_cli .timeoutExpired
      = "Sorry, I took too long to think. Please try again." ∧
    call_clawdbot_cli (.otherExc e) = "Error calling Clawdbot: " ++ e := by
  refine ⟨?_, rfl, rfl⟩
  intro h
  simp [call_clawdbot_cli, h]

/-- C3 witness: exit code 2 with standard error `boom`. -/
theorem clawdbot_invoker_error_texts_witness :
    call_clawdbot_cli (.completed 2 "" "boom")
      = "Clawdbot failed (code " ++ toString (2:Int) ++ "): "
          ++ (if pyStrip "boom" = "" then "Unknown error" else pyStrip "boom") :=
  (clawdbot_invoker_error_texts 2 "" "boom" "").1 (by decide)

/-- C4: on a successful (zero) exit, the invoker post-processes the captured
output: if the trimmed output has a line with the CLI-decoration marker
`│ ◇` — writing the line list as `pre ++ line :: post` with no marker in
`pre`, i.e. `line` is the first such line — the result is exactly the
trimmed text after the marker in that line; if no line has the marker, the
result is the whole trimmed output; if the trimmed output is empty, the
result is the fixed no-content message. Concretely, output containing the
line `│ ◇ hello world` yields `hello world`, and `plain text\n` with no
marker yields `plain text`. -/
theorem clawdbot_output_postprocessing (out err : String) :
    (∀ pre line post,
        pySplit "\n" (pyStrip out) = pre ++ line :: post →
        (∀ l ∈ pre, hasMarker l = false) →
        hasMarker line = true →
        call_clawdbot_cli (.completed 0 out err) = afterMarker line) ∧
    ((∀ l ∈ pySplit "\n" (pyStrip out), hasMarker l = false) →
        pyStrip out ≠ "" →
        call_clawdbot_cli (.completed 0 out err) = pyStrip out) ∧
    (pyStrip out = "" →
        call_clawdbot_cli (.completed 0 out err) = "Clawdbot returned no content.") ∧
    call_clawdbot_cli (.completed 0 "tool output\n│ ◇ hello world\ndone" "")
      = "hello world" ∧
    call_clawdbot_cli (.completed 0 "plain text\n" "") = "plain text" := by
  refine ⟨?_, ?_, call_success_empty out err, by decide, by decide⟩
  · intro pre line post hsplit hpre hmark
    have hne : pyStrip out ≠ "" := by
      intro h0
      rw [h0] at hsplit
      have h1 : pre ++ line :: post = [""] := by
        rw [← hsplit]; decide
      have h2 : line = "" := by
        cases pre with
        | nil => exact (List.cons.inj h1).1
        | cons a tl =>
          have hlen := congrArg List.length h1
          simp [List.length_append] at hlen
      rw [h2] at hmark
      exact absurd hmark (by decide)
    have hfind : (pySplit "\n" (pyStrip out)).find? hasMarker = some line :=
      List.find?_eq_some.mpr
        ⟨hmark, pre, post, hsplit, by intro a ha; simp [hpre a ha]⟩
    rw [call_success_eq out err hne, hfind]
  · intro hall hne
    have hfind : (pySplit "\n" (pyStrip out)).find? hasMarker = none :=
      List.find?_eq_none.mpr (by intro x hx; simp [hall x hx])
    rw [call_success_eq out err hne, hfind]

/-- C4 witness: the marker clause at the concrete output
`tool output\n│ ◇ hello world\ndone`, whose first marker line is
`│ ◇ hello world`. -/
theorem clawdbot_output_postprocessing_witness :
    call_clawdbot_cli (.completed 0 "tool output\n│ ◇ hello world\ndone" "")
      = afterMarker "│ ◇ hello world" :=
  (clawdbot_output_postprocessing "tool output\n│ ◇ hello world\ndone" "").1
    ["tool output"] "│ ◇ hello world" ["done"] (by decide) (by decide) (by decide)
/-- C5: an event whose `message_type` is not `"text"` never reaches the
agent invoker or the reply sender — `dispatched` is the only outcome that
runs them, and it is unreachable — and when the event is not a duplicate it
terminates exactly at the type filter. -/
theorem type_filter_blocks (st : DedupMap) (now : ℚ) (ev : InboundEvent)
    (ht : ev.message_type ≠ "text") :
    (∀ c t, (do_p2_im_message_receive_v1 st now ev).2
      ≠ DispatchOutcome.dispatched c t) ∧
    ((is_dup st now ev.message_id).1 = false →
      (do_p2_im_message_receive_v1 st now ev).2
        = DispatchOutcome.filteredWrongType) := by
  unfold do_p2_im_message_receive_v1
  cases hdup : (is_dup st now ev.message_id).1
  · simp [hdup, ht]
  · simp [hdup]

/-- C5 witness: a fresh `"image"` event in an empty window ends at the type
filter. -/
theorem type_filter_blocks_witness :
    (do_p2_im_message_receive_v1 [] 0
        ⟨"m1", "c1", "image", Except.ok (Json.obj [])⟩).2
      = DispatchOutcome.filteredWrongType :=
  (type_filter_blocks [] 0 ⟨"m1", "c1", "image", Except.ok (Json.obj [])⟩
    (by decide)).2 rfl

/-- C2 counterexample: a fresh text event whose content is the valid JSON
object `{}` — valid JSON with no `"text"` field — is not dropped: the
handler reaches the background dispatch with the default empty prompt, so
the agent invoker and the reply sender do run for it. -/
theorem malformed_drop_counterexample :
    (do_p2_im_message_receive_v1 [] 0
        ⟨"m1", "c1", "text", Except.ok (Json.obj [])⟩).2
      = DispatchOutcome.dispatched "c1" (Json.str "") := rfl

/-- C2 amended: for an accepted (non-duplicate) text event, content that is
not valid JSON is silently dropped — the background thread, and with it the
agent invoker and the reply sender, never starts; but content that is a
valid JSON object merely missing the `"text"` field is not dropped: the
event is dispatched with the default empty prompt. -/
theorem malformed_content_handling (st : DedupMap) (now : ℚ) (ev : InboundEvent)
    (hdup : (is_dup st now ev.message_id).1 = false)
    (htype : ev.message_type = "text") :
    (ev.content = Except.error () →
      (do_p2_im_message_receive_v1 st now ev).2 = DispatchOutcome.droppedMalformed ∧
      ∀ c t, (do_p2_im_message_receive_v1 st now ev).2
        ≠ DispatchOutcome.dispatched c t) ∧
    (∀ fields, ev.content = Except.ok (Json.obj fields) →
      fields.lookup "text" = none →
      (do_p2_im_message_receive_v1 st now ev).2
        = DispatchOutcome.dispatched ev.chat_id (Json.str "")) := by
  constructor
  · intro hc
    unfold do_p2_im_message_receive_v1
    simp [hdup, htype, hc]
  · intro fields hc hlk
    unfold do_p2_im_message_receive_v1
    simp [hdup, htype, hc, dictGetText, hlk]

/-- C2 witness: a fresh text event with non-JSON content is dropped with no
dispatch. -/
theorem malformed_content_handling_witness :
    (do_p2_im_message_receive_v1 [] 0
        ⟨"m2", "c1", "text", Except.error ()⟩).2
      = DispatchOutcome.droppedMalformed :=
  ((malformed_content_handling [] 0 ⟨"m2", "c1", "text", Except.error ()⟩
    rfl rfl).1 rfl).1

/-- C10: the malformed-content guard catches only `json.JSONDecodeError`:
when the content is valid JSON but not an object (an array, number, string,
boolean or null), the `.get` attribute access raises `AttributeError`,
which no `except` clause catches — the exception escapes the handler
instead of the event being silently dropped. -/
theorem json_non_object_uncaught (st : DedupMap) (now : ℚ) (ev : InboundEvent)
    (hdup : (is_dup st now ev.message_id).1 = false)
    (htype : ev.message_type = "text")
    (j : Json) (hc : ev.content = Except.ok j) (hobj : j.isObj = false) :
    (do_p2_im_message_receive_v1 st now ev).2 = DispatchOutcome.uncaughtError := by
  cases j with
  | obj fields => exact absurd hobj (by simp [Json.isObj])
  | arr items => unfold do_p2_im_message_receive_v1; simp [hdup, htype, hc]
  | str s => unfold do_p2_im_message_receive_v1; simp [hdup, htype, hc]
  | num n => unfold do_p2_im_message_receive_v1; simp [hdup, htype, hc]
  | bool b => unfold do_p2_im_message_receive_v1; simp [hdup, htype, hc]
  | null => unfold do_p2_im_message_receive_v1; simp [hdup, htype, hc]

/-- C10 witness: a fresh text event whose content is the JSON array `[]`
makes the handler raise instead of dropping the event. -/
theorem json_non_object_uncaught_witness :
    (do_p2_im_message_receive_v1 [] 0
        ⟨"m3", "c1", "text", Except.ok (Json.arr [])⟩).2
      = DispatchOutcome.uncaughtError :=
  json_non_object_uncaught [] 0 ⟨"m3", "c1", "text", Except.ok (Json.arr [])⟩
    rfl rfl (Json.arr []) rfl rfl

/-- C6 counterexample: on an attempt whose response reports success,
`send_lark_reply` still hands `None` back to its caller — not the boolean
`true` the claim requires (the Python function has no `return` statement). -/
theorem send_reply_no_bool_counterexample :
    (send_lark_reply "c1" "hi" (.response true 0 "")).2 = none ∧
    (none : Option Bool) ≠ some true :=
  ⟨rfl, by decide⟩

/-- C6 amended: `send_lark_reply` returns no success indicator — it returns
`None` on every path — and never escalates a failure: the outcome is only
logged, success with an info line (exactly when the response reported
success), a failed response or an exception from the client with an error
line. -/
theorem send_reply_logs_only (chat_id reply_text : String) (a : SendAttempt) :
    (send_lark_reply chat_id reply_text a).2 = none ∧
    ((∃ c m, a = SendAttempt.response true c m) ↔
      (send_lark_reply chat_id reply_text a).1
        = [LogLine.info ("[Feishu] Reply sent to chat_id: " ++ chat_id)]) := by
  cases a with
  | response success code msg => cases success <;> simp [send_lark_reply]
  | exc e => simp [send_lark_reply]

/-- C6 witness: a client exception is only logged; the caller still gets
`None` and no success line is emitted. -/
theorem send_reply_logs_only_witness :
    (send_lark_reply "c1" "hi" (.exc "connection reset")).2 = none ∧
    ((∃ c m, SendAttempt.exc "connection reset" = SendAttempt.response true c m) ↔
      (send_lark_reply "c1" "hi" (.exc "connection reset")).1
        = [LogLine.info ("[Feishu] Reply sent to chat_id: " ++ "c1")]) :=
  send_reply_logs_only "c1" "hi" (.exc "connection reset")

/-- C9 counterexample: an environment that sets `TTL_SECONDS=5` (and one
that sets nothing at all) both load a configuration whose dedup TTL is the
hardcoded 60 — the TTL is a source constant, not read from the
environment. -/
theorem ttl_not_from_env_counterexample :
    (loadConfig (fun k => if k = "TTL_SECONDS" then some "5" else none)).ttl_seconds = 60 ∧
    (loadConfig (fun _ => none)).ttl_seconds = 60 ∧
    (60 : ℚ) ≠ 5 :=
  ⟨rfl, rfl, by norm_num⟩

/-- C9 amended: the application identifier, secret, payload-encryption key
and verification token are read from the environment once at startup; the
agent session name and the dedup TTL are hardcoded process-wide constants —
`"main"` and 60 seconds, the very constants the invoker and the dedup
window use — whatever the environment holds. -/
theorem config_from_env (env : String → Option String) :
    (loadConfig env).app_id = env "APP_ID" ∧
    (loadConfig env).app_secret = env "APP_SECRET" ∧
    (loadConfig env).encrypt_key = env "ENCRYPT_KEY" ∧
    (loadConfig env).verification_token = env "VERIFICATION_TOKEN" ∧
    (loadConfig env).clawdbot_agent_session = CLAWDBOT_AGENT_SESSION ∧
    (loadConfig env).ttl_seconds = TTL_SECONDS :=
  ⟨rfl, rfl, rfl, rfl, rfl, rfl⟩

end ClawdbotFeishu
